import Mathlib

/-!
Shallow embedding of the batch deployment orchestrator (`batch_deploy.py`)
and the worker-pool runner (`batch_run.py`).

External effects (docker engine calls, the filesystem, HTTP probes, the OS
port table, wall-clock time) are modelled as explicit environment data:
each fallible external call is an `Except String Unit` outcome recorded in
the task environment, the health-check loop consumes a trace of per-tick
observations (container status, exit code, probe response, iteration
duration), and side-effecting docker operations are recorded in an action
trace.  The control flow of the Python functions is translated branch by
branch.
-/

/-- One iteration of the `check_aliveness` polling loop, as observed from
the outside: either `container.reload()` (or any statement under the bare
`except`) raises — `reloadError` — or the reloaded container has a status,
an exit code in its attrs, and, when probed, an HTTP outcome.
`dur` is the wall-clock time the iteration consumes (the `sleep(interval)`
plus reload and probe time); `probe` is `none` when `requests.get` raises
(connection error / request timeout), `some code` for a response with
that HTTP status code.  The probe is only consulted when `status` is
`"running"`. -/
inductive Tick where
  | obs (dur : Nat) (status : String) (exitCode : Int) (probe : Option Nat) : Tick
  | reloadError (dur : Nat) (msg : String) : Tick
deriving DecidableEq

/-- Result of `check_aliveness`: `healthy` is `(True, None)`, `failed r`
is `(False, r)`.  `outOfTrace` is a model artifact: the observation trace
ended while the real loop would still be polling. -/
inductive HealthResult where
  | healthy : HealthResult
  | failed (reason : String) : HealthResult
  | outOfTrace : HealthResult
deriving DecidableEq

/-- The reason string built on the `status == "exited"` branch:
`f"Container exited with code {container.attrs['State']['ExitCode']}"`. -/
def exitedMsg (code : Int) : String :=
  "Container exited with code " ++ toString code

/-- The reason string returned when the polling loop runs out of time:
`f"aliveness check timeout after {timeout} seconds, container status: {container.status}"`. -/
def timeoutMsg (timeout : Nat) (status : String) : String :=
  "aliveness check timeout after " ++ toString timeout ++
    " seconds, container status: " ++ status

/-- Model of `check_aliveness(container, host_port, timeout, interval)`.
`last` is the container status as of the most recent reload (the value
`container.status` would show at the loop condition), `elapsed` the
wall-clock seconds since `start` at the loop-condition check.  Mirrors the
source: while time remains, sleep+reload (one `Tick`); on status
`"running"` issue the probe — a request exception or a `raise_for_status`
error (code ≥ 400) is swallowed and polling continues, a 200 returns
success, and any other non-error code falls through and polling continues;
on status `"exited"` return failure with the exit code; any other status
just polls again.  When the time budget is exhausted at the loop condition,
return the timeout reason with the last observed status. -/
def check_aliveness (timeout : Nat) : String → Nat → List Tick → HealthResult
  | last, elapsed, [] =>
    if timeout ≤ elapsed then .failed (timeoutMsg timeout last) else .outOfTrace
  | last, elapsed, t :: rest =>
    if timeout ≤ elapsed then .failed (timeoutMsg timeout last)
    else
      match t with
      | .reloadError _ msg => .failed msg
      | .obs d st ec pr =>
        if st = "running" then
          match pr with
          | none => check_aliveness timeout st (elapsed + d) rest
          | some code =>
            if 400 ≤ code then check_aliveness timeout st (elapsed + d) rest
            else if code = 200 then .healthy
            else check_aliveness timeout st (elapsed + d) rest
        else if st = "exited" then .failed (exitedMsg ec)
        else check_aliveness timeout st (elapsed + d) rest

/-- Model of `check_port_in_use(port)`: asks the host's instantaneous port table
(`bound`) whether binding the candidate would fail. -/
def check_port_in_use (bound : Nat → Bool) (port : Nat) : Bool :=
  bound port

/-- The port-allocation loop of `main`:
`host_port = port_start; while check_port_in_use(host_port): host_port += 1`.
The source loop has no upper bound; `fuel` makes the search total in the
model, `none` standing for the unbounded search never finding a free
port. -/
def find_host_port (bound : Nat → Bool) : Nat → Nat → Option Nat
  | 0, _ => none
  | fuel + 1, p =>
    if check_port_in_use bound p then find_host_port bound fuel (p + 1)
    else some p

/-- The per-article metadata read from `articles/<uuid>.json`, restricted
to the fields `main` copies into the report row. -/
structure Article where
  uuid : String
  url : String
  title : String
  executable : Bool
  complexity : Nat
  confidence : Nat
  cost : Nat
  input_tokens : Nat
  output_tokens : Nat
  status : String
deriving DecidableEq

/-- One report row (`item` in `main`): the dict appended to `c2a` and
written to `c2a.csv`. -/
structure Item where
  uuid : String
  url : String
  title : String
  executable : Bool
  complexity : Nat
  confidence : Nat
  cost : Nat
  input_tokens : Nat
  output_tokens : Nat
  app_status : String
  host_url : Option String
  is_auto_deployed : Bool
  deploy_failed_reason : Option String
deriving DecidableEq

/-- The initial `item` dict built for every article whose metadata file
exists: report fields copied from the article, `host_url = None`,
`is_auto_deployed = False`, `deploy_failed_reason = None`. -/
def mkItem (a : Article) : Item :=
  { uuid := a.uuid, url := a.url, title := a.title, executable := a.executable
    complexity := a.complexity, confidence := a.confidence, cost := a.cost
    input_tokens := a.input_tokens, output_tokens := a.output_tokens
    app_status := a.status, host_url := none, is_auto_deployed := false
    deploy_failed_reason := none }

/-- The CLI configuration passed to `main`. -/
structure Config where
  baseDirName : String
  base_url : String
  port_start : Nat
  container_port : Nat

/-- Side-effecting docker-engine operations issued while processing one
task, in program order. -/
inductive DockerAction where
  | build (image : String) : DockerAction
  | run (image name : String) (hostPort containerPort : Nat) : DockerAction
  | updateRestartAlways (name : String) : DockerAction
  | stop (name : String) : DockerAction
  | removeForce (name : String) : DockerAction
deriving DecidableEq

/-- Whether the action is a `containers.run` call (container creation). -/
def DockerAction.isRun : DockerAction → Bool
  | .run _ _ _ _ => true
  | _ => false

/-- Whether the action is an `images.build` call. -/
def DockerAction.isBuild : DockerAction → Bool
  | .build _ => true
  | _ => false

/-- The external world as seen while processing one article: filesystem
facts, the docker engine's current state, outcomes of each fallible engine
call, the host port table at allocation time, and the health-check
observation trace. -/
structure TaskEnv where
  /-- whether `article_path.exists()` holds -/
  articleFileExists : Bool
  /-- whether `glob("**/Dockerfile")` finds at least one file -/
  dockerfileFound : Bool
  /-- whether `images.get(image_name)` succeeds (no `ImageNotFound`) -/
  imageExists : Bool
  /-- outcome of `docker_build` when it is called -/
  buildResult : Except String Unit
  /-- the host port table at allocation time -/
  bound : Nat → Bool
  /-- model fuel for the unbounded port search -/
  portFuel : Nat
  /-- whether `containers.get(container_name)` succeeds (no `NotFound`) -/
  containerExists : Bool
  /-- outcome of `docker_run` when it is called -/
  runResult : Except String Unit
  /-- the value of `container.status` when `check_aliveness` is entered -/
  initStatus : String
  /-- observation trace for the `check_aliveness` polling loop -/
  ticks : List Tick
  /-- outcome of `container.update(restart_policy=...)` -/
  updateResult : Except String Unit
  /-- outcome of `container.stop()` -/
  stopResult : Except String Unit
  /-- outcome of `container.remove(force=True)` -/
  removeResult : Except String Unit

/-- Outcome of processing one article in `main`'s loop: `skipped` when the
article metadata file does not exist (no row appended), `done` with the
finalized row and the docker actions issued, `diverged` when the model
trace ran out while the source would still be looping (port search without
fuel, health-check trace exhausted). -/
inductive TaskOutcome where
  | skipped : TaskOutcome
  | done (item : Item) (acts : List DockerAction) : TaskOutcome
  | diverged (acts : List DockerAction) : TaskOutcome
deriving DecidableEq

/-- The failure reason recorded by the per-task `except` handler:
`f"Failed to build or run: {traceback.format_exc()}"`. -/
def failMsg (e : String) : String := "Failed to build or run: " ++ e

/-- Health check plus the alive/not-alive branches (source lines 146-158):
on success set the restart policy then record `host_url` and
`is_auto_deployed = True`; on failure record the reason, stop and
force-remove the container, and record `is_auto_deployed = False`.  A
raise out of any engine call jumps to the `except` handler, which
overwrites `deploy_failed_reason` with the `failMsg` text and leaves every
other field as it was at the moment of the raise. -/
def deploy_check (cfg : Config) (env : TaskEnv) (item : Item) (cname : String)
    (acts : List DockerAction) (host_port : Nat) : TaskOutcome :=
  match check_aliveness 20 env.initStatus 0 env.ticks with
  | .outOfTrace => .diverged acts
  | .healthy =>
    match env.updateResult with
    | .error e =>
      .done { item with deploy_failed_reason := some (failMsg e) }
        (acts ++ [.updateRestartAlways cname])
    | .ok _ =>
      .done { item with
                host_url := some (cfg.base_url ++ ":" ++ toString host_port)
                is_auto_deployed := true }
        (acts ++ [.updateRestartAlways cname])
  | .failed r =>
    match env.stopResult with
    | .error e =>
      .done { item with deploy_failed_reason := some (failMsg e) }
        (acts ++ [.stop cname])
    | .ok _ =>
      match env.removeResult with
      | .error e =>
        .done { item with deploy_failed_reason := some (failMsg e) }
          (acts ++ [.stop cname, .removeForce cname])
      | .ok _ =>
        .done { item with deploy_failed_reason := some r, is_auto_deployed := false }
          (acts ++ [.stop cname, .removeForce cname])

/-- Container reconciliation (source lines 136-145): look the canonical
name up; if a container exists it is used as-is, otherwise `docker_run`
creates one. -/
def deploy_with_port (cfg : Config) (env : TaskEnv) (item : Item)
    (cname iname : String) (acts : List DockerAction) (host_port : Nat) :
    TaskOutcome :=
  if env.containerExists then
    deploy_check cfg env item cname acts host_port
  else
    match env.runResult with
    | .error e =>
      .done { item with deploy_failed_reason := some (failMsg e) }
        (acts ++ [.run iname cname host_port cfg.container_port])
    | .ok _ =>
      deploy_check cfg env item cname
        (acts ++ [.run iname cname host_port cfg.container_port]) host_port

/-- Port allocation (source lines 132-134) followed by container
reconciliation. -/
def deploy_after_image (cfg : Config) (env : TaskEnv) (item : Item)
    (cname iname : String) (acts : List DockerAction) : TaskOutcome :=
  match find_host_port env.bound env.portFuel cfg.port_start with
  | none => .diverged acts
  | some host_port => deploy_with_port cfg env item cname iname acts host_port

/-- The `try` block of `main`'s per-article processing (source lines
123-158): get the image by canonical tag or build it, then allocate a
port, reconcile the container, and health-check. -/
def deploy_try (cfg : Config) (a : Article) (env : TaskEnv) (item : Item) :
    TaskOutcome :=
  let cname := cfg.baseDirName ++ "-" ++ a.uuid
  let iname := a.uuid ++ ":" ++ cfg.baseDirName
  if env.imageExists then
    deploy_after_image cfg env item cname iname []
  else
    match env.buildResult with
    | .error e =>
      .done { item with deploy_failed_reason := some (failMsg e) } [.build iname]
    | .ok _ => deploy_after_image cfg env item cname iname [.build iname]

/-- One iteration of `main`'s loop over articles (source lines 88-162):
skip silently when the metadata file is missing; otherwise append a row;
stop there when the article status is not `"done"`; record
`"no dockerfile found"` and move on when the workspace has no Dockerfile;
otherwise run the guarded deployment. -/
def processArticle (cfg : Config) (a : Article) (env : TaskEnv) : TaskOutcome :=
  if env.articleFileExists = false then .skipped
  else
    let item := mkItem a
    if a.status ≠ "done" then .done item []
    else if env.dockerfileFound = false then
      .done { item with deploy_failed_reason := some "no dockerfile found" } []
    else deploy_try cfg a env item

/-- The whole batch: `main`'s loop over the article list followed by the
single `to_csv` write.  `some rows` is the report written at the end;
`none` is the model artifact for a task whose processing never terminates
(the write is then never reached). -/
def processBatch (cfg : Config) : List (Article × TaskEnv) → Option (List Item)
  | [] => some []
  | (a, env) :: rest =>
    match processArticle cfg a env with
    | .skipped => processBatch cfg rest
    | .done item _ => (processBatch cfg rest).map (item :: ·)
    | .diverged _ => none

/-- The outcome of `headless_main.run_controller` as consumed by
`run_datou`: on normal return, the accumulated token/cost metrics and the
final agent state; an exception is the `Except.error` case. -/
structure EngineState where
  prompt_tokens : Nat
  completion_tokens : Nat
  accumulated_cost : Nat
  agent_state : String
deriving DecidableEq

/-- The environment of one `run_datou` invocation: the article's status as
read from its metadata file, and what the generation engine does. -/
structure RunEnv where
  status : String
  engine : Except String EngineState

/-- Externally visible steps of `run_datou`, in program order.
`persistStatus s` is a `json.dump` of the article with `status = s`;
`cleanDirs` is the workspace/log reset; `removeContainer n` is
`os.system(f"docker rm -f {n}")`. -/
inductive RunAction where
  | cleanDirs : RunAction
  | persistStatus (status : String) : RunAction
  | removeContainer (name : String) : RunAction
deriving DecidableEq

/-- Model of `run_datou(uuid_str)` (source lines 27-97): skip articles already
`done`; otherwise reset workspace/logs, persist `status = "running"`,
invoke the engine inside `try/except Exception/finally`; the `try` body
marks `done` only when the agent state is `FINISHED` and raises otherwise,
the handler marks `failed`, and the `finally` block removes the
session container `openhands-runtime-<sid>` and persists the article with
its final status. -/
def run_datou (sid : String) (env : RunEnv) : List RunAction :=
  if env.status = "done" then []
  else
    let finalStatus :=
      match env.engine with
      | .error _ => "failed"
      | .ok st => if st.agent_state = "FINISHED" then "done" else "failed"
    [RunAction.cleanDirs, RunAction.persistStatus "running",
     RunAction.removeContainer ("openhands-runtime-" ++ sid),
     RunAction.persistStatus finalStatus]

/-- Wall-clock duration of one polling iteration. -/
def Tick.dur : Tick → Nat
  | .obs d _ _ _ => d
  | .reloadError d _ => d

/-- The container status a tick makes observable (`none` when the reload
itself raised). -/
def Tick.statusOf : Tick → Option String
  | .obs _ st _ _ => some st
  | .reloadError _ _ => none

/-- Whether the polling loop keeps going after this tick: the tick neither
returns success (status `"running"` with a 200 probe), nor failure
(status `"exited"`, or a raise under the bare `except`). -/
def Tick.continues : Tick → Bool
  | .obs _ st _ pr => (!(st == "running" && pr == some 200)) && (st != "exited")
  | .reloadError _ _ => false

/-- The value of `container.status` after a list of ticks has been
processed, starting from `last`. -/
def lastStatusAfter : String → List Tick → String
  | s, [] => s
  | s, .reloadError _ _ :: ts => lastStatusAfter s ts
  | _, .obs _ st _ _ :: ts => lastStatusAfter st ts

/-- A concrete article used to instantiate the theorems. -/
def aEx : Article :=
  { uuid := "u1", url := "http://x", title := "t", executable := true
    complexity := 2, confidence := 3, cost := 1, input_tokens := 10
    output_tokens := 20, status := "done" }

/-- A concrete configuration used to instantiate the theorems. -/
def cfgEx : Config :=
  { baseDirName := "base", base_url := "http://show.datou.me"
    port_start := 9001, container_port := 8000 }

/-- Environment where the canonical container already exists but is not
healthy: the only observation is an exited container. -/
def envC1 : TaskEnv :=
  { articleFileExists := true, dockerfileFound := true, imageExists := true
    buildResult := .ok (), bound := fun _ => false, portFuel := 5
    containerExists := true, runResult := .ok (), initStatus := "running"
    ticks := [Tick.obs 3 "exited" 1 none]
    updateResult := .ok (), stopResult := .ok (), removeResult := .ok () }

/-- Environment where the canonical image and container both exist and the
container answers 200 on the first probe. -/
def envHealthy : TaskEnv :=
  { articleFileExists := true, dockerfileFound := true, imageExists := true
    buildResult := .ok (), bound := fun _ => false, portFuel := 5
    containerExists := true, runResult := .ok (), initStatus := "running"
    ticks := [Tick.obs 3 "running" 0 (some 200)]
    updateResult := .ok (), stopResult := .ok (), removeResult := .ok () }

/-- Environment whose workspace has no Dockerfile. -/
def envNoDockerfile : TaskEnv :=
  { articleFileExists := true, dockerfileFound := false, imageExists := false
    buildResult := .ok (), bound := fun _ => false, portFuel := 5
    containerExists := false, runResult := .ok (), initStatus := "created"
    ticks := [], updateResult := .ok (), stopResult := .ok ()
    removeResult := .ok () }

/-- Environment where the image is absent and the build raises. -/
def envBuildFail : TaskEnv :=
  { articleFileExists := true, dockerfileFound := true, imageExists := false
    buildResult := .error "boom", bound := fun _ => false, portFuel := 5
    containerExists := false, runResult := .ok (), initStatus := "created"
    ticks := [], updateResult := .ok (), stopResult := .ok ()
    removeResult := .ok () }

/-- Environment where a fresh container is started, never answers a probe,
and every observation is a still-starting container: the 20-second budget
runs out after seven 3-second ticks. -/
def envTimeout : TaskEnv :=
  { articleFileExists := true, dockerfileFound := true, imageExists := true
    buildResult := .ok (), bound := fun _ => false, portFuel := 5
    containerExists := false, runResult := .ok (), initStatus := "created"
    ticks := List.replicate 7 (Tick.obs 3 "running" 0 none)
    updateResult := .ok (), stopResult := .ok (), removeResult := .ok () }

/-- A concrete worker-pool environment: an article in `init` status whose
engine run finishes successfully. -/
def runEnvEx : RunEnv :=
  { status := "init"
    engine := .ok { prompt_tokens := 1, completion_tokens := 2
                    accumulated_cost := 3, agent_state := "FINISHED" } }

lemma take_dur_sum_le (l : List Tick) (n : Nat) :
    ((l.take n).map Tick.dur).sum ≤ (l.map Tick.dur).sum := by
  conv_rhs => rw [← List.take_append_drop n l]
  rw [List.map_append, List.sum_append]
  exact Nat.le_add_right _ _

lemma check_aliveness_step_continue (timeout : Nat) (t : Tick) (rest : List Tick)
    (last : String) (elapsed : Nat)
    (hc : t.continues = true) (hlt : elapsed < timeout) :
    check_aliveness timeout last elapsed (t :: rest) =
      check_aliveness timeout (t.statusOf.getD last) (elapsed + t.dur) rest := by
  cases t with
  | reloadError d msg => simp [Tick.continues] at hc
  | obs d st ec pr =>
    by_cases hst : st = "running"
    · subst hst
      cases pr with
      | none => simp [check_aliveness, Nat.not_le.mpr hlt, Tick.statusOf, Tick.dur]
      | some code =>
        have hcode : code ≠ 200 := by
          intro h200; subst h200; simp [Tick.continues] at hc
        by_cases h4 : 400 ≤ code
        · simp [check_aliveness, Nat.not_le.mpr hlt, h4, hcode, Tick.statusOf, Tick.dur]
        · simp [check_aliveness, Nat.not_le.mpr hlt, h4, hcode, Tick.statusOf, Tick.dur]
    · have hex : st ≠ "exited" := by
        intro h; subst h; simp [Tick.continues] at hc
      simp [check_aliveness, Nat.not_le.mpr hlt, hst, hex, Tick.statusOf, Tick.dur]

lemma lastStatusAfter_cons (last : String) (t : Tick) (ts : List Tick) :
    lastStatusAfter last (t :: ts) = lastStatusAfter (t.statusOf.getD last) ts := by
  cases t <;> simp [lastStatusAfter, Tick.statusOf]

lemma check_aliveness_run_all (timeout : Nat) (ticks : List Tick) :
    ∀ (last : String) (elapsed : Nat) (rest : List Tick),
    (∀ t ∈ ticks, t.continues = true) →
    (∀ n, n < ticks.length → elapsed + ((ticks.take n).map Tick.dur).sum < timeout) →
    check_aliveness timeout last elapsed (ticks ++ rest) =
      check_aliveness timeout (lastStatusAfter last ticks)
        (elapsed + (ticks.map Tick.dur).sum) rest := by
  induction ticks with
  | nil => intro last elapsed rest _ _; simp [lastStatusAfter]
  | cons t ts ih =>
    intro last elapsed rest hcont hpre
    have hlt : elapsed < timeout := by
      have h0 := hpre 0 (by simp)
      simpa using h0
    rw [List.cons_append,
      check_aliveness_step_continue timeout t (ts ++ rest) last elapsed
        (hcont t (by simp)) hlt,
      ih (t.statusOf.getD last) (elapsed + t.dur) rest
        (fun u hu => hcont u (by simp [hu]))
        (fun n hn => by
          have hn1 := hpre (n + 1) (by simpa using Nat.succ_lt_succ hn)
          simp only [List.take_succ_cons, List.map_cons, List.sum_cons] at hn1
          omega),
      lastStatusAfter_cons]
    congr 1
    simp [Nat.add_assoc]

lemma check_aliveness_timeout_eq (timeout : Nat) (ticks : List Tick)
    (last : String)
    (hcont : ∀ t ∈ ticks, t.continues = true)
    (hpre : ∀ n, n < ticks.length → ((ticks.take n).map Tick.dur).sum < timeout)
    (htot : timeout ≤ (ticks.map Tick.dur).sum) :
    check_aliveness timeout last 0 ticks =
      .failed (timeoutMsg timeout (lastStatusAfter last ticks)) := by
  conv_lhs => rw [show ticks = ticks ++ [] from (List.append_nil ticks).symm]
  rw [check_aliveness_run_all timeout ticks last 0 [] hcont
    (fun n hn => by have := hpre n hn; omega)]
  simp [check_aliveness, htot]

lemma check_aliveness_exited_eq (timeout : Nat) (pre : List Tick)
    (d : Nat) (ec : Int) (pr : Option Nat) (rest : List Tick) (last : String)
    (hcont : ∀ t ∈ pre, t.continues = true)
    (htime : (pre.map Tick.dur).sum < timeout) :
    check_aliveness timeout last 0 (pre ++ Tick.obs d "exited" ec pr :: rest) =
      .failed (exitedMsg ec) := by
  rw [check_aliveness_run_all timeout pre last 0 _ hcont
    (fun n hn => by have := take_dur_sum_le pre n; omega)]
  have h2 : ¬ timeout ≤ (pre.map Tick.dur).sum := by omega
  simp [check_aliveness, h2]

lemma processArticle_failed_health (cfg : Config) (a : Article) (env : TaskEnv)
    (r : String) (hp : Nat)
    (h1 : env.articleFileExists = true) (h2 : a.status = "done")
    (h3 : env.dockerfileFound = true)
    (h4 : env.imageExists = true ∨ env.buildResult = .ok ())
    (h5 : find_host_port env.bound env.portFuel cfg.port_start = some hp)
    (h6 : env.containerExists = true ∨ env.runResult = .ok ())
    (h7 : check_aliveness 20 env.initStatus 0 env.ticks = .failed r)
    (h8 : env.stopResult = .ok ()) (h9 : env.removeResult = .ok ()) :
    ∃ acts, processArticle cfg a env =
        .done { mkItem a with
                  deploy_failed_reason := some r
                  is_auto_deployed := false } acts ∧
      DockerAction.stop (cfg.baseDirName ++ "-" ++ a.uuid) ∈ acts ∧
      DockerAction.removeForce (cfg.baseDirName ++ "-" ++ a.uuid) ∈ acts := by
  unfold processArticle deploy_try deploy_after_image deploy_with_port deploy_check
  by_cases himg : env.imageExists
  · by_cases hcon : env.containerExists
    · exact ⟨[.stop (cfg.baseDirName ++ "-" ++ a.uuid),
          .removeForce (cfg.baseDirName ++ "-" ++ a.uuid)],
        by simp [h1, h2, h3, himg, hcon, h5, h7, h8, h9], by simp, by simp⟩
    · have hrun : env.runResult = .ok () := h6.resolve_left (by simp [hcon])
      exact ⟨[.run (a.uuid ++ ":" ++ cfg.baseDirName)
            (cfg.baseDirName ++ "-" ++ a.uuid) hp cfg.container_port,
          .stop (cfg.baseDirName ++ "-" ++ a.uuid),
          .removeForce (cfg.baseDirName ++ "-" ++ a.uuid)],
        by simp [h1, h2, h3, himg, hcon, hrun, h5, h7, h8, h9],
        by simp, by simp⟩
  · have hbuild : env.buildResult = .ok () := h4.resolve_left (by simp [himg])
    by_cases hcon : env.containerExists
    · exact ⟨[.build (a.uuid ++ ":" ++ cfg.baseDirName),
          .stop (cfg.baseDirName ++ "-" ++ a.uuid),
          .removeForce (cfg.baseDirName ++ "-" ++ a.uuid)],
        by simp [h1, h2, h3, himg, hbuild, hcon, h5, h7, h8, h9],
        by simp, by simp⟩
    · have hrun : env.runResult = .ok () := h6.resolve_left (by simp [hcon])
      exact ⟨[.build (a.uuid ++ ":" ++ cfg.baseDirName),
          .run (a.uuid ++ ":" ++ cfg.baseDirName)
            (cfg.baseDirName ++ "-" ++ a.uuid) hp cfg.container_port,
          .stop (cfg.baseDirName ++ "-" ++ a.uuid),
          .removeForce (cfg.baseDirName ++ "-" ++ a.uuid)],
        by simp [h1, h2, h3, himg, hbuild, hcon, hrun, h5, h7, h8, h9],
        by simp, by simp⟩

lemma deploy_check_inv (cfg : Config) (env : TaskEnv) (item : Item)
    (cname : String) (acts : List DockerAction) (hp : Nat)
    (item' : Item) (acts' : List DockerAction)
    (hu : item.host_url = none) (hd : item.is_auto_deployed = false)
    (h : deploy_check cfg env item cname acts hp = .done item' acts') :
    (item'.is_auto_deployed = true ↔ item'.host_url ≠ none) := by
  unfold deploy_check at h
  split at h
  · simp at h
  · split at h
    · injection h with h1 h2; subst h1; simp [hd, hu]
    · injection h with h1 h2; subst h1; simp
  · split at h
    · injection h with h1 h2; subst h1; simp [hd, hu]
    · split at h
      · injection h with h1 h2; subst h1; simp [hd, hu]
      · injection h with h1 h2; subst h1; simp [hd, hu]

lemma deploy_with_port_inv (cfg : Config) (env : TaskEnv) (item : Item)
    (cname iname : String) (acts : List DockerAction) (hp : Nat)
    (item' : Item) (acts' : List DockerAction)
    (hu : item.host_url = none) (hd : item.is_auto_deployed = false)
    (h : deploy_with_port cfg env item cname iname acts hp = .done item' acts') :
    (item'.is_auto_deployed = true ↔ item'.host_url ≠ none) := by
  unfold deploy_with_port at h
  split at h
  · exact deploy_check_inv cfg env item cname acts hp item' acts' hu hd h
  · split at h
    · injection h with h1 h2; subst h1; simp [hd, hu]
    · exact deploy_check_inv cfg env item cname _ hp item' acts' hu hd h

lemma deploy_after_image_inv (cfg : Config) (env : TaskEnv) (item : Item)
    (cname iname : String) (acts : List DockerAction)
    (item' : Item) (acts' : List DockerAction)
    (hu : item.host_url = none) (hd : item.is_auto_deployed = false)
    (h : deploy_after_image cfg env item cname iname acts = .done item' acts') :
    (item'.is_auto_deployed = true ↔ item'.host_url ≠ none) := by
  unfold deploy_after_image at h
  split at h
  · simp at h
  · exact deploy_with_port_inv cfg env item cname iname acts _ item' acts' hu hd h

lemma deploy_try_inv (cfg : Config) (a : Article) (env : TaskEnv) (item : Item)
    (item' : Item) (acts' : List DockerAction)
    (hu : item.host_url = none) (hd : item.is_auto_deployed = false)
    (h : deploy_try cfg a env item = .done item' acts') :
    (item'.is_auto_deployed = true ↔ item'.host_url ≠ none) := by
  unfold deploy_try at h
  split at h
  · exact deploy_after_image_inv cfg env item _ _ _ item' acts' hu hd h
  · split at h
    · injection h with h1 h2; subst h1; simp [hd, hu]
    · exact deploy_after_image_inv cfg env item _ _ _ item' acts' hu hd h

lemma processBatch_append (cfg : Config) (l1 l2 : List (Article × TaskEnv)) :
    processBatch cfg (l1 ++ l2) =
      (processBatch cfg l1).bind
        (fun i1 => (processBatch cfg l2).map (fun i2 => i1 ++ i2)) := by
  induction l1 with
  | nil =>
    simp only [List.nil_append, processBatch, Option.some_bind]
    cases processBatch cfg l2 <;> simp
  | cons p rest ih =>
    obtain ⟨a, env⟩ := p
    simp only [List.cons_append, processBatch]
    cases hpa : processArticle cfg a env with
    | skipped => exact ih
    | done item acts =>
      dsimp only
      rw [List.append_eq, ih]
      cases processBatch cfg rest <;> cases processBatch cfg l2 <;> simp
    | diverged acts => simp

lemma deploy_check_acts_subset (cfg : Config) (env : TaskEnv) (item : Item)
    (cname : String) (acts : List DockerAction) (hp : Nat)
    (item' : Item) (acts' : List DockerAction)
    (h : deploy_check cfg env item cname acts hp = .done item' acts') :
    ∀ x ∈ acts', x ∈ acts ∨ (x.isRun = false ∧ x.isBuild = false) := by
  unfold deploy_check at h
  split at h
  · simp at h
  · split at h <;>
    · injection h with h1 h2
      subst h2
      intro x hx
      rcases List.mem_append.mp hx with hx | hx
      · exact Or.inl hx
      · simp at hx
        subst hx
        exact Or.inr ⟨rfl, rfl⟩
  · split at h
    · injection h with h1 h2
      subst h2
      intro x hx
      rcases List.mem_append.mp hx with hx | hx
      · exact Or.inl hx
      · simp at hx
        subst hx
        exact Or.inr ⟨rfl, rfl⟩
    · split at h <;>
      · injection h with h1 h2
        subst h2
        intro x hx
        rcases List.mem_append.mp hx with hx | hx
        · exact Or.inl hx
        · simp at hx
          rcases hx with rfl | rfl
          · exact Or.inr ⟨rfl, rfl⟩
          · exact Or.inr ⟨rfl, rfl⟩

/-- C5: for every task whose workspace contains no Dockerfile, the report
row carries the non-empty failure reason `"no dockerfile found"`, its
deployed flag is false, no docker action (in particular no build and no
run) is issued, and processing yields a row and moves on rather than
raising. -/
theorem no_dockerfile_terminal_outcome (cfg : Config) (a : Article)
    (env : TaskEnv) (h1 : env.articleFileExists = true)
    (h2 : a.status = "done") (h3 : env.dockerfileFound = false) :
    ∃ item, processArticle cfg a env = .done item [] ∧
      item.deploy_failed_reason = some "no dockerfile found" ∧
      item.is_auto_deployed = false ∧ item.host_url = none := by
  refine ⟨{ mkItem a with deploy_failed_reason := some "no dockerfile found" },
    ?_, rfl, by simp [mkItem], by simp [mkItem]⟩
  unfold processArticle
  simp [h1, h2, h3]

/-- Witness for C5: a concrete task with no Dockerfile in its workspace. -/
theorem no_dockerfile_terminal_outcome_witness :
    ∃ item, processArticle cfgEx aEx envNoDockerfile = .done item [] ∧
      item.deploy_failed_reason = some "no dockerfile found" ∧
      item.is_auto_deployed = false ∧ item.host_url = none :=
  no_dockerfile_terminal_outcome cfgEx aEx envNoDockerfile rfl rfl rfl

/-- C10: on every report row produced by per-article processing, the
deployed flag is true exactly when the host URL field is non-null. -/
theorem deployed_iff_host_url (cfg : Config) (a : Article) (env : TaskEnv)
    (item : Item) (acts : List DockerAction)
    (h : processArticle cfg a env = .done item acts) :
    (item.is_auto_deployed = true ↔ item.host_url ≠ none) := by
  unfold processArticle at h
  split at h
  · simp at h
  · split at h
    · injection h with h1 h2
      subst h1
      simp [mkItem]
    · split at h
      · injection h with h1 h2
        subst h1
        simp [mkItem]
      · exact deploy_try_inv cfg a env (mkItem a) item acts
          (by simp [mkItem]) (by simp [mkItem]) h

/-- Witness for C10 on a healthy concrete deployment: both the flag and
the URL are set. -/
theorem deployed_iff_host_url_witness :
    (({ mkItem aEx with
          host_url := some "http://show.datou.me:9001"
          is_auto_deployed := true } : Item).is_auto_deployed = true ↔
      ({ mkItem aEx with
          host_url := some "http://show.datou.me:9001"
          is_auto_deployed := true } : Item).host_url ≠ none) :=
  deployed_iff_host_url cfgEx aEx envHealthy
    { mkItem aEx with
        host_url := some "http://show.datou.me:9001"
        is_auto_deployed := true }
    [DockerAction.updateRestartAlways "base-u1"] (by decide)

/-- C7: re-invoking deployment when the canonical image already exists and
the canonical container already exists and is healthy issues no image
build and no container creation. -/
theorem redeploy_healthy_no_build_no_run (cfg : Config) (a : Article)
    (env : TaskEnv) (item : Item) (acts : List DockerAction)
    (h1 : env.articleFileExists = true) (h2 : a.status = "done")
    (h3 : env.dockerfileFound = true)
    (h4 : env.imageExists = true) (h5 : env.containerExists = true)
    (h6 : check_aliveness 20 env.initStatus 0 env.ticks = .healthy)
    (h : processArticle cfg a env = .done item acts) :
    ∀ x ∈ acts, x.isBuild = false ∧ x.isRun = false := by
  unfold processArticle deploy_try deploy_after_image deploy_with_port at h
  simp only [h1, h2, h3, h4, h5, if_true, if_false, Bool.true_eq_false,
    ite_false, ite_true, ne_eq, not_true_eq_false] at h
  split at h
  · simp at h
  · intro x hx
    rcases deploy_check_acts_subset _ _ _ _ _ _ _ _ h x hx with hx' | hx'
    · simp at hx'
    · exact ⟨hx'.2, hx'.1⟩

/-- Witness for C7: concrete healthy reuse issues only the restart-policy
update, which is neither a build nor a run. -/
theorem redeploy_healthy_no_build_no_run_witness :
    (DockerAction.updateRestartAlways "base-u1").isBuild = false ∧
    (DockerAction.updateRestartAlways "base-u1").isRun = false :=
  redeploy_healthy_no_build_no_run cfgEx aEx envHealthy
    { mkItem aEx with
        host_url := some "http://show.datou.me:9001"
        is_auto_deployed := true }
    [DockerAction.updateRestartAlways "base-u1"]
    rfl rfl rfl rfl rfl (by decide) (by decide)
    (DockerAction.updateRestartAlways "base-u1") (by simp)

/-- C1 counterexample: a container with the canonical name exists and is
not healthy (it is observed exited), yet the code issues no
`containers.run` — the existing container is reused for the health check
as-is and is only stopped and force-removed afterwards, never recreated.
This refutes the claimed stop/force-remove/recreate-before-verification
reconciliation. -/
theorem existing_unhealthy_container_not_recreated_cex :
    envC1.containerExists = true ∧
    processArticle cfgEx aEx envC1 =
      .done { mkItem aEx with
                deploy_failed_reason := some (exitedMsg 1)
                is_auto_deployed := false }
        [DockerAction.stop "base-u1", DockerAction.removeForce "base-u1"] ∧
    (∀ x ∈ [DockerAction.stop "base-u1", DockerAction.removeForce "base-u1"],
      x.isRun = false) := by
  decide

/-- C1 (amended): when a container with the canonical name already exists
it is reused unconditionally, whether or not it is healthy; no new
container is ever created for that task (teardown after a failed health
check does not recreate). -/
theorem existing_container_never_recreated (cfg : Config) (a : Article)
    (env : TaskEnv) (item : Item) (acts : List DockerAction)
    (h5 : env.containerExists = true)
    (h : processArticle cfg a env = .done item acts) :
    ∀ x ∈ acts, x.isRun = false := by
  unfold processArticle at h
  split at h
  · simp at h
  · split at h
    · injection h with h1 h2
      subst h2
      simp
    · split at h
      · injection h with h1 h2
        subst h2
        simp
      · unfold deploy_try at h
        split at h
        · unfold deploy_after_image at h
          split at h
          · simp at h
          · unfold deploy_with_port at h
            simp only [h5, if_true] at h
            intro x hx
            rcases deploy_check_acts_subset _ _ _ _ _ _ _ _ h x hx with hx' | hx'
            · simp at hx'
            · exact hx'.1
        · split at h
          · injection h with h1 h2
            subst h2
            simp [DockerAction.isRun]
          · unfold deploy_after_image at h
            split at h
            · simp at h
            · unfold deploy_with_port at h
              simp only [h5, if_true] at h
              intro x hx
              rcases deploy_check_acts_subset _ _ _ _ _ _ _ _ h x hx with hx' | hx'
              · simp at hx'
                subst hx'
                rfl
              · exact hx'.1

/-- Witness for the amended C1 at a concrete existing container: the two
actions issued are the post-check stop and force-remove, neither of which
is a container creation. -/
theorem existing_container_never_recreated_witness :
    (DockerAction.stop "base-u1").isRun = false ∧
    (DockerAction.removeForce "base-u1").isRun = false :=
  ⟨existing_container_never_recreated cfgEx aEx envC1
      { mkItem aEx with
          deploy_failed_reason := some (exitedMsg 1)
          is_auto_deployed := false }
      [DockerAction.stop "base-u1", DockerAction.removeForce "base-u1"]
      rfl (by decide) (DockerAction.stop "base-u1") (by simp),
    existing_container_never_recreated cfgEx aEx envC1
      { mkItem aEx with
          deploy_failed_reason := some (exitedMsg 1)
          is_auto_deployed := false }
      [DockerAction.stop "base-u1", DockerAction.removeForce "base-u1"]
      rfl (by decide) (DockerAction.removeForce "base-u1") (by simp)⟩

/-- C2 counterexample: a poll tick observes the container running and the
probe answers 204 — a 2xx status — yet the health check does not
transition to healthy; it keeps polling until the timeout. -/
theorem probe_2xx_not_healthy_cex :
    check_aliveness 20 "created" 0
        (List.replicate 7 (Tick.obs 3 "running" 0 (some 204))) =
      .failed (timeoutMsg 20 "running") ∧
    check_aliveness 20 "created" 0
        (List.replicate 7 (Tick.obs 3 "running" 0 (some 204))) ≠
      .healthy := by
  decide

/-- C2 (amended): at a poll tick with time remaining at which the
container status is running, an HTTP response with status exactly 200
transitions the check to healthy and ends polling, while any other
response code — including other 2xx codes — leaves the check polling. -/
theorem probe_200_only_transitions_healthy (timeout elapsed d : Nat)
    (last : String) (ec : Int) (code : Nat) (rest : List Tick)
    (h : elapsed < timeout) :
    check_aliveness timeout last elapsed
        (Tick.obs d "running" ec (some code) :: rest) =
      if code = 200 then .healthy
      else check_aliveness timeout "running" (elapsed + d) rest := by
  by_cases h4 : 400 ≤ code
  · have hne : code ≠ 200 := by omega
    simp [check_aliveness, Nat.not_le.mpr h, h4, hne]
  · simp [check_aliveness, Nat.not_le.mpr h, h4]

/-- Witness for the amended C2: a first-tick 200 probe is healthy. -/
theorem probe_200_only_transitions_healthy_witness :
    check_aliveness 20 "created" 0 [Tick.obs 3 "running" 0 (some 200)] =
      .healthy := by
  have h := probe_200_only_transitions_healthy 20 0 3 "created" 0 200 []
    (by decide)
  simpa using h

/-- C3: if the container is observed exited before any probe has
succeeded (all earlier ticks keep the loop polling) and within the
20-second budget, the health check fails with a reason containing the
captured exit code, and the per-task flow then stops and force-removes
the container; the deployed flag stays false. -/
theorem exited_fails_with_exit_code_and_teardown (cfg : Config) (a : Article)
    (env : TaskEnv) (pre rest : List Tick) (d : Nat) (ec : Int)
    (pr : Option Nat) (hp : Nat)
    (h1 : env.articleFileExists = true) (h2 : a.status = "done")
    (h3 : env.dockerfileFound = true)
    (h4 : env.imageExists = true ∨ env.buildResult = .ok ())
    (h5 : find_host_port env.bound env.portFuel cfg.port_start = some hp)
    (h6 : env.containerExists = true ∨ env.runResult = .ok ())
    (hticks : env.ticks = pre ++ Tick.obs d "exited" ec pr :: rest)
    (hcont : ∀ t ∈ pre, t.continues = true)
    (htime : (pre.map Tick.dur).sum < 20)
    (h8 : env.stopResult = .ok ()) (h9 : env.removeResult = .ok ()) :
    ∃ item acts, processArticle cfg a env = .done item acts ∧
      item.is_auto_deployed = false ∧
      (∃ s1, item.deploy_failed_reason = some (s1 ++ toString ec)) ∧
      DockerAction.stop (cfg.baseDirName ++ "-" ++ a.uuid) ∈ acts ∧
      DockerAction.removeForce (cfg.baseDirName ++ "-" ++ a.uuid) ∈ acts := by
  have hfail : check_aliveness 20 env.initStatus 0 env.ticks =
      .failed (exitedMsg ec) := by
    rw [hticks]
    exact check_aliveness_exited_eq 20 pre d ec pr rest env.initStatus hcont htime
  obtain ⟨acts, hpa, hstop, hrem⟩ :=
    processArticle_failed_health cfg a env (exitedMsg ec) hp
      h1 h2 h3 h4 h5 h6 hfail h8 h9
  exact ⟨_, acts, hpa, by simp, ⟨"Container exited with code ", rfl⟩,
    hstop, hrem⟩

/-- Witness for C3: a concrete container that exits with code 1 on the
first tick. -/
theorem exited_fails_with_exit_code_and_teardown_witness :
    ∃ item acts, processArticle cfgEx aEx envC1 = .done item acts ∧
      item.is_auto_deployed = false ∧
      (∃ s1, item.deploy_failed_reason = some (s1 ++ toString (1 : Int))) ∧
      DockerAction.stop (cfgEx.baseDirName ++ "-" ++ aEx.uuid) ∈ acts ∧
      DockerAction.removeForce (cfgEx.baseDirName ++ "-" ++ aEx.uuid) ∈ acts :=
  exited_fails_with_exit_code_and_teardown cfgEx aEx envC1 [] [] 3 1 none 9001
    rfl rfl rfl (Or.inl rfl) (by decide) (Or.inl rfl) rfl
    (by simp) (by decide) rfl rfl

/-- C4: if every tick within the 20-second budget keeps the loop polling
(no successful probe, no exited observation) and the budget is exhausted,
the health check fails with the timeout reason reporting the last observed
container status, and the per-task flow then stops and force-removes the
container; the deployed flag stays false. -/
theorem no_success_times_out_with_teardown (cfg : Config) (a : Article)
    (env : TaskEnv) (hp : Nat)
    (h1 : env.articleFileExists = true) (h2 : a.status = "done")
    (h3 : env.dockerfileFound = true)
    (h4 : env.imageExists = true ∨ env.buildResult = .ok ())
    (h5 : find_host_port env.bound env.portFuel cfg.port_start = some hp)
    (h6 : env.containerExists = true ∨ env.runResult = .ok ())
    (hcont : ∀ t ∈ env.ticks, t.continues = true)
    (hpre : ∀ n, n < env.ticks.length →
      ((env.ticks.take n).map Tick.dur).sum < 20)
    (htot : 20 ≤ (env.ticks.map Tick.dur).sum)
    (h8 : env.stopResult = .ok ()) (h9 : env.removeResult = .ok ()) :
    ∃ item acts, processArticle cfg a env = .done item acts ∧
      item.is_auto_deployed = false ∧
      item.deploy_failed_reason =
        some (timeoutMsg 20 (lastStatusAfter env.initStatus env.ticks)) ∧
      DockerAction.stop (cfg.baseDirName ++ "-" ++ a.uuid) ∈ acts ∧
      DockerAction.removeForce (cfg.baseDirName ++ "-" ++ a.uuid) ∈ acts := by
  have hfail : check_aliveness 20 env.initStatus 0 env.ticks =
      .failed (timeoutMsg 20 (lastStatusAfter env.initStatus env.ticks)) :=
    check_aliveness_timeout_eq 20 env.ticks env.initStatus hcont hpre htot
  obtain ⟨acts, hpa, hstop, hrem⟩ :=
    processArticle_failed_health cfg a env
      (timeoutMsg 20 (lastStatusAfter env.initStatus env.ticks)) hp
      h1 h2 h3 h4 h5 h6 hfail h8 h9
  exact ⟨_, acts, hpa, by simp, by simp, hstop, hrem⟩

/-- Witness for C4: a concrete container that never answers within seven
3-second ticks. -/
theorem no_success_times_out_with_teardown_witness :
    ∃ item acts, processArticle cfgEx aEx envTimeout = .done item acts ∧
      item.is_auto_deployed = false ∧
      item.deploy_failed_reason =
        some (timeoutMsg 20
          (lastStatusAfter envTimeout.initStatus envTimeout.ticks)) ∧
      DockerAction.stop (cfgEx.baseDirName ++ "-" ++ aEx.uuid) ∈ acts ∧
      DockerAction.removeForce (cfgEx.baseDirName ++ "-" ++ aEx.uuid) ∈ acts :=
  no_success_times_out_with_teardown cfgEx aEx envTimeout 9001
    rfl rfl rfl (Or.inl rfl) (by decide) (Or.inr rfl)
    (by decide) (by decide) (by decide) rfl rfl

/-- C6 counterexample: two sequential allocations from the same starting
port 9001.  At the first call port 9001 is bound, so the search returns
9002; before the second call port 9001 has been released (e.g. its
container was stopped and removed), so the search returns 9001 — the
sequence of returned ports decreases, refuting monotone non-decrease. -/
theorem port_alloc_not_monotone_cex :
    find_host_port (fun p => p == 9001) 5 9001 = some 9002 ∧
    find_host_port (fun _ => false) 5 9001 = some 9001 ∧
    ¬ (9002 : Nat) ≤ 9001 := by
  decide

/-- C6 (amended): every returned port is unbound at the instant of its
call and is the first free candidate counting up from the start port; and
successive allocations from the same start are monotonically
non-decreasing provided every port bound at the earlier call is still
bound at the later one (the code re-scans from the start port each time,
so releasing a port can make a later allocation return a smaller one). -/
theorem port_alloc_first_free_and_monotone :
    (∀ (bound : Nat → Bool) (fuel start p : Nat),
        find_host_port bound fuel start = some p →
        check_port_in_use bound p = false ∧ start ≤ p ∧
          ∀ q, start ≤ q → q < p → check_port_in_use bound q = true) ∧
    (∀ (bound bound' : Nat → Bool) (fuel fuel' start p p' : Nat),
        (∀ q, bound q = true → bound' q = true) →
        find_host_port bound fuel start = some p →
        find_host_port bound' fuel' start = some p' →
        p ≤ p') := by
  have main : ∀ (bound : Nat → Bool) (fuel start p : Nat),
      find_host_port bound fuel start = some p →
      check_port_in_use bound p = false ∧ start ≤ p ∧
        ∀ q, start ≤ q → q < p → check_port_in_use bound q = true := by
    intro bound fuel
    induction fuel with
    | zero => intro start p h; simp [find_host_port] at h
    | succ n ih =>
      intro start p h
      unfold find_host_port check_port_in_use at h
      by_cases hb : bound start = true
      · rw [if_pos hb] at h
        obtain ⟨hfree, hle, hmin⟩ := ih (start + 1) p h
        refine ⟨hfree, by omega, fun q hq1 hq2 => ?_⟩
        rcases Nat.eq_or_lt_of_le hq1 with rfl | hlt
        · exact hb
        · exact hmin q (by omega) hq2
      · rw [if_neg hb] at h
        injection h with h'
        subst h'
        exact ⟨by simpa [check_port_in_use] using hb, Nat.le_refl _,
          fun q hq1 hq2 => absurd hq2 (by omega)⟩
  refine ⟨main, ?_⟩
  intro bound bound' fuel fuel' start p p' hsub hp hp'
  by_contra hgt
  push_neg at hgt
  obtain ⟨hfree', hle', _⟩ := main bound' fuel' start p' hp'
  obtain ⟨_, _, hmin⟩ := main bound fuel start p hp
  have hbound : check_port_in_use bound p' = true := hmin p' hle' hgt
  have hbound' : bound' p' = true := hsub p' hbound
  simp [check_port_in_use, hbound'] at hfree'

/-- Witness for the amended C6: the first free port from 9001 with 9001
bound is 9002, and with a grown bound set a later allocation from the same
start is at least as large. -/
theorem port_alloc_first_free_and_monotone_witness :
    (check_port_in_use (fun p => p == 9001) 9002 = false ∧ 9001 ≤ 9002 ∧
      ∀ q, 9001 ≤ q → q < 9002 →
        check_port_in_use (fun p => p == 9001) q = true) ∧
    (9002 : Nat) ≤ 9002 :=
  ⟨port_alloc_first_free_and_monotone.1 (fun p => p == 9001) 5 9001 9002
      (by decide),
    port_alloc_first_free_and_monotone.2 (fun p => p == 9001)
      (fun p => p == 9001) 5 5 9001 9002 9002
      (fun q hq => hq) (by decide) (by decide)⟩

/-- C8: a build failure on one task is caught at that task's boundary and
recorded as that row's failure reason, every task before and after it is
still processed and recorded, and the final report is still produced with
one row per task whose metadata file exists. -/
theorem build_failure_does_not_abort_batch (cfg : Config)
    (pre post : List (Article × TaskEnv)) (a : Article) (env : TaskEnv)
    (e : String) (items1 items2 : List Item)
    (h1 : env.articleFileExists = true) (h2 : a.status = "done")
    (h3 : env.dockerfileFound = true) (h4 : env.imageExists = false)
    (h5 : env.buildResult = .error e)
    (hpre : processBatch cfg pre = some items1)
    (hpost : processBatch cfg post = some items2) :
    processBatch cfg (pre ++ (a, env) :: post) =
      some (items1 ++
        ({ mkItem a with deploy_failed_reason := some (failMsg e) } ::
          items2)) := by
  have hone : processArticle cfg a env =
      .done { mkItem a with deploy_failed_reason := some (failMsg e) }
        [.build (a.uuid ++ ":" ++ cfg.baseDirName)] := by
    unfold processArticle deploy_try
    simp [h1, h2, h3, h4, h5]
  have hcons : processBatch cfg ((a, env) :: post) =
      some ({ mkItem a with deploy_failed_reason := some (failMsg e) } ::
        items2) := by
    simp only [processBatch, hone, hpost]
    rfl
  rw [processBatch_append, hpre, Option.some_bind, hcons]
  rfl

/-- Witness for C8: a concrete two-task batch whose first task's build
raises; the second task is still recorded and the report is written. -/
theorem build_failure_does_not_abort_batch_witness :
    processBatch cfgEx ([] ++ (aEx, envBuildFail) :: [(aEx, envNoDockerfile)]) =
      some ([] ++
        ({ mkItem aEx with deploy_failed_reason := some (failMsg "boom") } ::
          [{ mkItem aEx with
               deploy_failed_reason := some "no dockerfile found" }])) :=
  build_failure_does_not_abort_batch cfgEx [] [(aEx, envNoDockerfile)]
    aEx envBuildFail "boom" []
    [{ mkItem aEx with deploy_failed_reason := some "no dockerfile found" }]
    rfl rfl rfl rfl rfl rfl (by decide)

/-- C9: every worker-pool task run that reaches the generation engine (its
article is not already done) ends, on all three exit paths — engine
success with agent state FINISHED, engine success without FINISHED, and an
engine exception — with a final cleanup that removes the scoped session
container `openhands-runtime-<sid>` and then persists the article with its
final status, which is either done or failed. -/
theorem session_container_removed_and_final_status_persisted (sid : String)
    (env : RunEnv) (h : env.status ≠ "done") :
    ∃ s, run_datou sid env =
        [RunAction.cleanDirs, RunAction.persistStatus "running",
         RunAction.removeContainer ("openhands-runtime-" ++ sid),
         RunAction.persistStatus s] ∧
      (s = "done" ∨ s = "failed") := by
  unfold run_datou
  rw [if_neg h]
  cases henv : env.engine with
  | error e => exact ⟨"failed", by simp [henv], Or.inr rfl⟩
  | ok st =>
    by_cases hfin : st.agent_state = "FINISHED"
    · exact ⟨"done", by simp [henv, hfin], Or.inl rfl⟩
    · exact ⟨"failed", by simp [henv, hfin], Or.inr rfl⟩

/-- Witness for C9: a concrete successful engine run. -/
theorem session_container_removed_witness :
    ∃ s, run_datou "abc" runEnvEx =
        [RunAction.cleanDirs, RunAction.persistStatus "running",
         RunAction.removeContainer ("openhands-runtime-" ++ "abc"),
         RunAction.persistStatus s] ∧
      (s = "done" ∨ s = "failed") :=
  session_container_removed_and_final_status_persisted "abc" runEnvEx
    (by decide)
